import Mathlib

/-!
Shallow embedding of `scripts/modernize_gallery.py`: the field-extraction,
navigation-inference and page-generation pipeline of the gallery
modernization script, together with proofs of the specification claims.

The Python script drives everything through `re` patterns over the raw
document text.  We embed a small backtracking regular-expression engine
whose semantics mirror the fragment of Python `re` the script uses
(literals with IGNORECASE, character classes, `.` with DOTALL, greedy and
lazy repetition, alternation, one numbered capture group per use site,
and the `$` end anchor).  File reading and writing are modelled by passing
document contents as strings; the batch loop is modelled as a pure map
over an association list of (filename, content) pairs.
-/

/-- Characters treated as whitespace by Python `\s` and `str.strip`
(ASCII fragment; the gallery corpus is ASCII in all positions the
patterns inspect). -/
def isPySpace (c : Char) : Bool :=
  c = ' ' || c = '\t' || c = '\n' || c = '\r' || c = '\x0c' || c = '\x0b'

/-- Regular-expression abstract syntax, covering exactly the constructs
used by the patterns in `modernize_gallery.py`. -/
inductive RE where
  | eps : RE
  | ch : Char → RE
  | chI : Char → RE
  | cls : Bool → List Char → RE
  | wsp : RE
  | digit : RE
  | anyc : Bool → RE
  | seq : RE → RE → RE
  | alt : RE → RE → RE
  | star : Bool → RE → RE
  | group : Nat → RE → RE
  | eos : RE
deriving Repr

/-- Captured groups: association list from group number to captured
characters; the most recent capture is consed on front, so `lookup`
returns the last capture, as Python does. -/
abbrev Groups := List (Nat × List Char)

/-- Backtracking matcher.  `reMat fuel r s g k` tries to match `r` at the
front of `s` with groups `g`, invoking continuation `k` on the remainder;
alternatives are tried in the priority order Python uses (left branch
first, greedy stars longest-first, lazy stars shortest-first).  Fuel only
bounds recursion depth; `bigFuel` below is always sufficient because every
starred subpattern of the embedded patterns consumes at least one
character per iteration. -/
def reMat : Nat → RE → List Char → Groups →
    (List Char → Groups → Option (List Char × Groups)) → Option (List Char × Groups)
  | 0, _, _, _, _ => none
  | Nat.succ f, r, s, g, k =>
    match r with
    | .eps => k s g
    | .ch c =>
      match s with
      | [] => none
      | x :: xs => if x = c then k xs g else none
    | .chI c =>
      match s with
      | [] => none
      | x :: xs => if x.toLower = c then k xs g else none
    | .cls neg cs =>
      match s with
      | [] => none
      | x :: xs => if (cs.contains x) ≠ neg then k xs g else none
    | .wsp =>
      match s with
      | [] => none
      | x :: xs => if isPySpace x then k xs g else none
    | .digit =>
      match s with
      | [] => none
      | x :: xs => if x.isDigit then k xs g else none
    | .anyc dotall =>
      match s with
      | [] => none
      | x :: xs => if dotall || x ≠ '\n' then k xs g else none
    | .seq a b => reMat f a s g (fun s1 g1 => reMat f b s1 g1 k)
    | .alt a b =>
      match reMat f a s g k with
      | some res => some res
      | none => reMat f b s g k
    | .star lazyq body =>
      if lazyq then
        match k s g with
        | some res => some res
        | none =>
          reMat f body s g (fun s1 g1 =>
            if s1.length < s.length then reMat f (.star lazyq body) s1 g1 k else k s1 g1)
      else
        match reMat f body s g (fun s1 g1 =>
            if s1.length < s.length then reMat f (.star lazyq body) s1 g1 k else k s1 g1) with
        | some res => some res
        | none => k s g
    | .group n body =>
      reMat f body s g (fun s1 g1 => k s1 ((n, s.take (s.length - s1.length)) :: g1))
    | .eos => if s = [] ∨ s = ['\n'] then k s g else none

/-- Node count of a pattern, used to size the fuel. -/
def reSize : RE → Nat
  | .eps => 1
  | .ch _ => 1
  | .chI _ => 1
  | .cls _ _ => 1
  | .wsp => 1
  | .digit => 1
  | .anyc _ => 1
  | .seq a b => reSize a + reSize b + 1
  | .alt a b => reSize a + reSize b + 1
  | .star _ a => reSize a + 1
  | .group _ a => reSize a + 1
  | .eos => 1

/-- Ample fuel for matching `r` against `s`: depth of any backtracking
path is bounded by the pattern size times the number of star unrollings,
itself bounded by the input length since every star body consumes. -/
def bigFuel (r : RE) (s : List Char) : Nat :=
  (reSize r + 2) * (s.length + 2)

/-- Try to match `r` anchored at the front of `s`; on success returns
(matched, rest, groups). -/
def reTry (r : RE) (s : List Char) : Option (List Char × List Char × Groups) :=
  match reMat (bigFuel r s) r s [] (fun s1 g1 => some (s1, g1)) with
  | some (rest, g) => some (s.take (s.length - rest.length), rest, g)
  | none => none

/-- Leftmost search, as `re.search`: returns (prefix before the match,
matched text, rest after the match, groups). -/
def reSearchAux (r : RE) : List Char → List Char →
    Option (List Char × List Char × List Char × Groups)
  | pre, [] =>
    match reTry r [] with
    | some (m, rest, g) => some (pre.reverse, m, rest, g)
    | none => none
  | pre, x :: xs =>
    match reTry r (x :: xs) with
    | some (m, rest, g) => some (pre.reverse, m, rest, g)
    | none => reSearchAux r (x :: pre) xs

/-- Leftmost search over a character list. -/
def reSearch (r : RE) (s : List Char) : Option (List Char × List Char × List Char × Groups) :=
  reSearchAux r [] s

/-- Python `match.group(1)` after a successful `re.search`; `none` when
the pattern does not occur.  Every embedded pattern with a group binds it
on any successful match, so the group lookup never falls back. -/
def reSearchG1 (r : RE) (s : String) : Option String :=
  match reSearch r s.data with
  | some (_, _, _, g) => some (String.mk ((g.lookup 1).getD []))
  | none => none

/-- Python `re.findall` for a two-group pattern: non-overlapping matches
left to right, each reported as its pair of captures. -/
def reFindAll2Aux : Nat → RE → List Char → List (String × String)
  | 0, _, _ => []
  | Nat.succ f, r, s =>
    match reSearch r s with
    | none => []
    | some (_, m, rest, g) =>
      (String.mk ((g.lookup 1).getD []), String.mk ((g.lookup 2).getD [])) ::
      (if m.isEmpty then
        match rest with
        | [] => []
        | _ :: rs => reFindAll2Aux f r rs
      else reFindAll2Aux f r rest)

/-- Python `re.findall` for a two-group pattern. -/
def reFindAll2 (r : RE) (s : String) : List (String × String) :=
  reFindAll2Aux (s.data.length + 1) r s.data

/-- Python `re.sub(pattern, "", s)`: delete every non-overlapping match. -/
def reSubAllAux : Nat → RE → List Char → List Char
  | 0, _, s => s
  | Nat.succ f, r, s =>
    match reSearch r s with
    | none => s
    | some (pre, m, rest, _) =>
      if m.isEmpty then
        match rest with
        | [] => pre
        | x :: rs => pre ++ x :: reSubAllAux f r rs
      else pre ++ reSubAllAux f r rest

/-- Python `re.sub(pattern, "", s)` over strings. -/
def reSubAllStr (r : RE) (s : String) : String :=
  String.mk (reSubAllAux (s.data.length + 1) r s.data)

/-- Python `re.split(pattern, s)`: pieces between non-overlapping
matches.  The embedded split patterns never match the empty string. -/
def reSplitAux : Nat → RE → List Char → List String
  | 0, _, s => [String.mk s]
  | Nat.succ f, r, s =>
    match reSearch r s with
    | none => [String.mk s]
    | some (pre, m, rest, _) =>
      if m.isEmpty then [String.mk s]
      else String.mk pre :: reSplitAux f r rest

/-- Python `re.split(pattern, s)` over strings. -/
def reSplitStr (r : RE) (s : String) : List String :=
  reSplitAux (s.data.length + 1) r s.data

/-- Case-sensitive literal sequence. -/
def rlit (cs : List Char) : RE :=
  cs.foldr (fun c r => RE.seq (RE.ch c) r) RE.eps

/-- Literal sequence under `re.IGNORECASE`: letters compare through
`toLower`, other characters exactly. -/
def rlitI (cs : List Char) : RE :=
  cs.foldr (fun c r => RE.seq (if c.isAlpha then RE.chI c.toLower else RE.ch c) r) RE.eps

/-- One-or-more repetition (greedy), as `+`. -/
def rplus (r : RE) : RE := RE.seq r (RE.star false r)

/-- Python `str.strip`. -/
def pyStrip (s : String) : String :=
  String.mk (((s.data.dropWhile isPySpace).reverse.dropWhile isPySpace).reverse)

/-- Python `str.startswith`. -/
def pyStartsWith (s p : String) : Bool := p.data.isPrefixOf s.data

/-- Substring test over character lists, with the semantics of the Python
`in` operator on strings (the empty needle occurs everywhere). -/
def isSubstring (needle : List Char) : List Char → Bool
  | [] => needle.isEmpty
  | x :: t => needle.isPrefixOf (x :: t) || isSubstring needle t

/-- Python `needle in hay` for strings. -/
def strContains (hay needle : String) : Bool := isSubstring needle.data hay.data

/-- The entities `html.unescape` resolves that the gallery corpus and the
claims exercise.  The Python function resolves the full HTML5 entity
table; none of the proved claims depends on the extent of the table. -/
def entityTable : List (List Char × Char) :=
  [("amp;".data, '&'), ("lt;".data, '<'), ("gt;".data, '>'),
   ("quot;".data, '"'), ("apos;".data, '\'')]

/-- Try to read one entity reference after an ampersand. -/
def matchEntity (s : List Char) : Option (Char × List Char) :=
  (entityTable.filterMap (fun pc =>
    if pc.1.isPrefixOf s then some (pc.2, s.drop pc.1.length) else none)).head?

/-- Worker for `unescape`, fueled by the input length. -/
def unescapeAux : Nat → List Char → List Char
  | 0, s => s
  | _ + 1, [] => []
  | Nat.succ f, c :: rest =>
    if c = '&' then
      match matchEntity rest with
      | some (e, rest1) => e :: unescapeAux f rest1
      | none => '&' :: unescapeAux f rest
    else c :: unescapeAux f rest

/-- Python `html.unescape` (on the embedded entity table). -/
def unescape (s : String) : String :=
  String.mk (unescapeAux (s.data.length + 1) s.data)

/-- Python `list.index` wrapped in try/except: first index of `x`, or
`none` when absent. -/
def pyIndex (xs : List String) (x : String) : Option Nat :=
  match xs with
  | [] => none
  | y :: ys => if y = x then some 0 else (pyIndex ys x).map (· + 1)

/-- Digits to a number, as Python `int` on a decimal-digit string. -/
def natOfDigits (s : String) : Nat :=
  s.data.foldl (fun acc c => acc * 10 + (c.toNat - '0'.toNat)) 0

/-! ## The compiled patterns of `modernize_gallery.py` -/

/-- Lazy `(.*?)` under DOTALL, captured as group 1. -/
def lazyDotGroup1 : RE := RE.group 1 (RE.star true (RE.anyc true))

/-- Pattern of line 18: the styled production-info block. -/
def fontInfoRE : RE :=
  RE.seq (rlitI "<font size=\"2\" color=\"#FFFFFF\">".data)
    (RE.seq lazyDotGroup1 (rlitI "</font>".data))

/-- Pattern of line 29: first italic span, group 1 (IGNORECASE, DOTALL). -/
def italicRE : RE :=
  RE.seq (rlitI "<i>".data) (RE.seq lazyDotGroup1 (rlitI "</i>".data))

/-- Pattern of line 35: italic spans without a group, used by `re.sub`. -/
def italicSubRE : RE :=
  RE.seq (rlitI "<i>".data)
    (RE.seq (RE.star true (RE.anyc true)) (rlitI "</i>".data))

/-- Pattern of lines 32 and 38: a line-break tag (IGNORECASE). -/
def brRE : RE :=
  RE.seq (rlitI "<br".data)
    (RE.seq (RE.star false RE.wsp)
      (RE.seq (RE.alt (RE.ch '/') RE.eps) (RE.ch '>')))

/-- Character class excluding the double quote. -/
def notQuote : RE := RE.cls true ['"']

/-- Character class excluding the closing angle bracket. -/
def notGt : RE := RE.cls true ['>']

/-- Group 1 of the anchor patterns: a gallery page href. -/
def galleryHrefG1 : RE :=
  RE.group 1 (RE.seq (rlitI "gallery_".data)
    (RE.seq (rplus notQuote) (rlitI ".htm".data)))

/-- Pattern of line 77: anchor-wrapped image, groups href and src. -/
def thumbRE : RE :=
  RE.seq (rlitI "<a href=\"".data) <|
  RE.seq galleryHrefG1 <|
  RE.seq (RE.ch '"') <|
  RE.seq (RE.star false notGt) <|
  RE.seq (RE.ch '>') <|
  RE.seq (RE.star false RE.wsp) <|
  RE.seq (rlitI "<img".data) <|
  RE.seq (rplus notGt) <|
  RE.seq (rlitI "src=\"".data) <|
  RE.seq (RE.group 2 (rplus notQuote)) <|
  RE.seq (RE.ch '"') <|
  RE.seq (RE.star false notGt) (RE.ch '>')

/-- Pattern of line 94: previous-arrow anchor, group 1 the href. -/
def prevArrowRE : RE :=
  RE.seq (rlitI "<a href=\"".data) <|
  RE.seq galleryHrefG1 <|
  RE.seq (RE.ch '"') <|
  RE.seq (RE.star false notGt) <|
  RE.seq (RE.ch '>') <|
  RE.seq (RE.star false RE.wsp) <|
  RE.seq (rlitI "<img".data) <|
  RE.seq (rplus notGt) <|
  RE.seq (rlitI "src=\"".data) <|
  RE.seq (RE.star false notQuote) (rlitI "prev_arrow".data)

/-- Pattern of line 103: next-arrow anchor, group 1 the href. -/
def nextArrowRE : RE :=
  RE.seq (rlitI "<a href=\"".data) <|
  RE.seq galleryHrefG1 <|
  RE.seq (RE.ch '"') <|
  RE.seq (RE.star false notGt) <|
  RE.seq (RE.ch '>') <|
  RE.seq (RE.star false RE.wsp) <|
  RE.seq (rlitI "<img".data) <|
  RE.seq (rplus notGt) <|
  RE.seq (rlitI "src=\"".data) <|
  RE.seq (RE.star false notQuote) (rlitI "next_arrow".data)

/-- Pattern of line 130: large image under the gallery-images path. -/
def largeImgRE : RE :=
  RE.seq (rlitI "<img".data) <|
  RE.seq (rplus notGt) <|
  RE.seq (rlitI "src=\"".data) <|
  RE.seq (RE.group 1 (RE.seq (rlitI "../images/gallery/".data)
    (RE.seq (rplus notQuote) (rlitI "_lg.jpg".data)))) (RE.ch '"')

/-- Pattern of line 141: the photo-credit fragment. -/
def creditRE : RE :=
  RE.seq (rlitI "<font size=\"1\">".data) <|
  RE.seq (RE.star false RE.wsp) <|
  RE.seq (rlitI "Photo:".data) <|
  RE.seq (RE.star false RE.wsp) <|
  RE.seq (RE.group 1 (rplus (RE.cls true ['<']))) (rlitI "</font>".data)

/-- Pattern of line 151: trailing photo number (case-sensitive, `$`). -/
def photoNumRE : RE :=
  RE.seq (RE.ch '_') <|
  RE.seq (RE.group 1 (rplus RE.digit)) <|
  RE.seq (rlit ".htm".data) RE.eos

/-! ## Data model -/

/-- The dictionary built by `extract_production_info`. -/
structure ProductionInfo where
  title : String
  composer : String
  venue : String
  year : String
  scenery : String
  costumes : String
  lights : String
  choreography : String
deriving Repr, DecidableEq

/-- A thumbnail entry: link target and image source. -/
structure Thumb where
  href : String
  src : String
deriving Repr, DecidableEq

/-! ## Field extraction -/

/-- Lines 38-39: split the de-italicized block on line breaks, drop
blank segments, strip and unescape the rest. -/
def cleanInfoLines (rest : String) : List String :=
  ((reSplitStr brRE rest).filter (fun l => pyStrip l != "")).map
    (fun l => unescape (pyStrip l))

/-- Lines 52-60: the credit-accumulating loop body, state
(scenery, costumes, lights, choreography). -/
def creditStep (acc : String × String × String × String) (line : String) :
    String × String × String × String :=
  if pyStartsWith line "Scenery:" then (line, acc.2.1, acc.2.2.1, acc.2.2.2)
  else if pyStartsWith line "Costumes:" then (acc.1, line, acc.2.2.1, acc.2.2.2)
  else if pyStartsWith line "Lights:" then (acc.1, acc.2.1, line, acc.2.2.2)
  else if pyStartsWith line "Choreography:" then (acc.1, acc.2.1, acc.2.2.1, line)
  else acc

/-- Lines 15-71: `extract_production_info`. -/
def extract_production_info (content : String) : Option ProductionInfo :=
  match reSearchG1 fontInfoRE content with
  | none => none
  | some info_html =>
    let title0 :=
      match reSearchG1 italicRE info_html with
      | some t => pyStrip t
      | none => ""
    let title := pyStrip (reSubAllStr brRE title0)
    let rest := reSubAllStr italicSubRE info_html
    let lines := cleanInfoLines rest
    let composer := lines.getD 0 ""
    let venue := lines.getD 1 ""
    let year := lines.getD 2 ""
    let credits := (lines.drop 3).foldl creditStep ("", "", "", "")
    some { title := unescape title, composer := composer, venue := venue,
           year := year, scenery := credits.1, costumes := credits.2.1,
           lights := credits.2.2.1, choreography := credits.2.2.2 }

/-- Lines 73-85: `extract_thumbnails`. -/
def extract_thumbnails (content : String) : List Thumb :=
  ((reFindAll2 thumbRE content).filter (fun hs => strContains hs.2 "_sm.")).map
    (fun hs => { href := hs.1, src := hs.2 })

/-- Lines 93-99: the explicit previous-arrow link, or empty. -/
def nav_prev_raw (content : String) : String :=
  match reSearchG1 prevArrowRE content with
  | some s => s
  | none => ""

/-- Lines 102-108: the explicit next-arrow link, or empty. -/
def nav_next_raw (content : String) : String :=
  match reSearchG1 nextArrowRE content with
  | some s => s
  | none => ""

/-- Lines 87-124: `extract_navigation`.  The `getD`/`getLastD` defaults
are never hit: the inference branch runs only on a non-empty thumbnail
list, with in-range indices (Python would raise otherwise, unreachably). -/
def extract_navigation (content : String) (thumbnails : List Thumb)
    (current_filename : String) : String × String :=
  let prev_link := nav_prev_raw content
  let next_link := nav_next_raw content
  if !thumbnails.isEmpty && (prev_link == "" || next_link == "") then
    let thumb_hrefs := thumbnails.map Thumb.href
    match pyIndex thumb_hrefs current_filename with
    | none => (prev_link, next_link)
    | some current_idx =>
      let prev_link1 :=
        if prev_link == "" then
          if current_idx == 0 then thumb_hrefs.getLastD ""
          else thumb_hrefs.getD (current_idx - 1) ""
        else prev_link
      let next_link1 :=
        if next_link == "" then
          if current_idx == thumb_hrefs.length - 1 then thumb_hrefs.getD 0 ""
          else thumb_hrefs.getD (current_idx + 1) ""
        else next_link
      (prev_link1, next_link1)
  else (prev_link, next_link)

/-- Lines 126-136: `extract_large_image`. -/
def extract_large_image (content : String) : String :=
  match reSearchG1 largeImgRE content with
  | some s => s
  | none => ""

/-- Lines 138-147: `extract_photo_credit`. -/
def extract_photo_credit (content : String) : String :=
  match reSearchG1 creditRE content with
  | some s => "Photo: " ++ pyStrip s
  | none => ""

/-- Lines 149-154: `get_current_photo_number`. -/
def get_current_photo_number (filename : String) : Nat :=
  match reSearchG1 photoNumRE filename with
  | some ds => natOfDigits ds
  | none => 1

/-! ## Page generation (lines 156-261) -/

/-- Template bytes before the production-info interpolation. -/
def tplHead : String :=
  "<!DOCTYPE html>\n<html lang=\"en\">\n<head>\n  <meta charset=\"UTF-8\">\n  <meta name=\"viewport\" content=\"width=device-width, initial-scale=1.0\">\n  <title>Chas Rader-Shieber - Stage Director</title>\n  <link rel=\"stylesheet\" href=\"../styles.css\">\n</head>\n<body>\n\n  <div class=\"gallery-detail-layout\">\n    \n    <!-- Left Black Sidebar with production info and thumbnails -->\n    <aside class=\"gallery-detail-sidebar\">\n      <div class=\"production-detail-info\">\n        <p>\n"

/-- Template bytes between production info and the thumbnail grid. -/
def tplAfterInfo : String :=
  "\n        </p>\n      </div>\n      <div class=\"thumbnail-grid\">\n"

/-- Template bytes between the thumbnail grid and the previous link. -/
def tplAfterGrid : String :=
  "\n      </div>\n    </aside>\n\n    <!-- Header -->\n    <header class=\"header\">\n      <a href=\"../index.htm\" class=\"logo\">\n        <img src=\"../images/crs_sd.gif\" alt=\"Chas Rader-Shieber - Stage Director\">\n      </a>\n      <nav class=\"main-nav\">\n        <a href=\"gallery.htm\" class=\"nav-link\">\n          <img src=\"../images/gallery.gif\" alt=\"Gallery\" class=\"nav-img-default\">\n          <img src=\"../images/gallery_on.gif\" alt=\"Gallery\" class=\"nav-img-hover\">\n        </a>\n        <a href=\"../schedule.htm\" class=\"nav-link\">\n          <img src=\"../images/schedule.gif\" alt=\"Schedule\" class=\"nav-img-default\">\n          <img src=\"../images/schedule_on.gif\" alt=\"Schedule\" class=\"nav-img-hover\">\n        </a>\n        <a href=\"../resume.htm\" class=\"nav-link\">\n          <img src=\"../images/resume.gif\" alt=\"Résumé\" class=\"nav-img-default\">\n          <img src=\"../images/resume_on.gif\" alt=\"Résumé\" class=\"nav-img-hover\">\n        </a>\n        <a href=\"../contact.htm\" class=\"nav-link\">\n          <img src=\"../images/contact.gif\" alt=\"Contact\" class=\"nav-img-default\">\n          <img src=\"../images/contact_on.gif\" alt=\"Contact\" class=\"nav-img-hover\">\n        </a>\n      </nav>\n    </header>\n\n    <!-- Main Content: Photo viewer -->\n    <main class=\"photo-viewer\">\n      <div class=\"photo-nav\">\n        <a href=\""

/-- Template bytes between the previous link and the next link. -/
def tplBetweenArrows : String :=
  "\" class=\"nav-arrow\">\n          <img src=\"../images/prev_arrow.gif\" alt=\"Previous\" class=\"nav-img-default\">\n          <img src=\"../images/prev_arrow_on.gif\" alt=\"Previous\" class=\"nav-img-hover\">\n        </a>\n        <a href=\""

/-- Template bytes between the next link and the large image source. -/
def tplAfterArrows : String :=
  "\" class=\"nav-arrow\">\n          <img src=\"../images/next_arrow.gif\" alt=\"Next\" class=\"nav-img-default\">\n          <img src=\"../images/next_arrow_on.gif\" alt=\"Next\" class=\"nav-img-hover\">\n        </a>\n      </div>\n      <div class=\"large-photo\">\n        <img src=\""

/-- Template bytes between the large-image alt text and the credit. -/
def tplBeforeCredit : String :=
  "\">\n      </div>\n      <p class=\"photo-credit-detail\">"

/-- Closing template bytes. -/
def tplTail : String :=
  "</p>\n    </main>\n\n  </div>\n\n</body>\n</html>\n"

/-- Lines 161-173: the production-info lines of the sidebar. -/
def build_info_lines (info : ProductionInfo) : List String :=
  let l0 := ["          <i>" ++ info.title ++ "</i><br>",
             "          " ++ info.composer ++ "<br>",
             "          " ++ info.venue ++ "<br>",
             "          " ++ info.year]
  let l1 := if info.scenery != "" then l0 ++ ["<br>\n          " ++ info.scenery] else l0
  let l2 := if info.costumes != "" then l1 ++ ["<br>\n          " ++ info.costumes] else l1
  let l3 := if info.lights != "" then l2 ++ ["<br>\n          " ++ info.lights] else l2
  if info.choreography != "" then l3 ++ ["<br>\n          " ++ info.choreography] else l3

/-- Line 175: the joined production-info section. -/
def build_production_info (info : ProductionInfo) : String :=
  String.intercalate "\n" (build_info_lines info)

/-- Lines 182-185: one rendered thumbnail anchor; `active_class` is the
string the code computes at line 181. -/
def thumb_entry (i : Nat) (t : Thumb) (active_class : String) : String :=
  "        <a href=\"" ++ t.href ++ "\" class=\"thumb" ++ active_class ++ "\">" ++
  "<img src=\"" ++ t.src ++ "\" alt=\"Photo " ++ toString i ++ "\"></a>"

/-- Lines 178-185: the rendered thumbnail lines, 1-based numbering. -/
def build_thumb_lines (thumbnails : List Thumb) (current_filename : String) :
    List String :=
  thumbnails.enum.map (fun it =>
    thumb_entry (it.1 + 1) it.2 (if it.2.href = current_filename then " active" else ""))

/-- Line 186: the joined thumbnail grid. -/
def build_thumbnail_grid (thumbnails : List Thumb) (current_filename : String) : String :=
  String.intercalate "\n" (build_thumb_lines thumbnails current_filename)

/-- Lines 156-261: `generate_modern_html`. -/
def generate_modern_html (info : ProductionInfo) (thumbnails : List Thumb)
    (prev_link next_link large_image photo_credit current_filename : String) : String :=
  let current_num := get_current_photo_number current_filename
  let production_info := build_production_info info
  let thumbnail_grid := build_thumbnail_grid thumbnails current_filename
  tplHead ++ production_info ++ tplAfterInfo ++ thumbnail_grid ++ tplAfterGrid ++
  prev_link ++ tplBetweenArrows ++ next_link ++ tplAfterArrows ++ large_image ++
  "\" alt=\"" ++ info.title ++ " - Photo " ++ toString current_num ++
  tplBeforeCredit ++ photo_credit ++ tplTail

/-! ## Per-file processing and the batch loop (lines 263-355) -/

/-- Lines 263-265: `is_already_modernized`. -/
def is_already_modernized (content : String) : Bool :=
  strContains content "<!DOCTYPE html>" && strContains content "gallery-detail-layout"

/-- Lines 267-310: `process_gallery_file`, with the file read modelled by
passing the content (the ReadError branch is file-system behaviour
outside the embedding). -/
def process_gallery_file (filename content : String) : Option String × String :=
  if filename = "gallery.htm" ∨ filename = "gallery_old.htm" ∨ filename = "gallery-new.htm" then
    (none, "Skipped (index file)")
  else if is_already_modernized content then
    (none, "Already modernized")
  else
    match extract_production_info content with
    | none => (none, "Could not extract production info")
    | some info =>
      let thumbnails := extract_thumbnails content
      if thumbnails.isEmpty then (none, "Could not extract thumbnails")
      else
        let nav := extract_navigation content thumbnails filename
        if nav.1 = "" ∨ nav.2 = "" then (none, "Could not extract navigation")
        else
          let large_image := extract_large_image content
          if large_image = "" then (none, "Could not extract large image")
          else
            let photo_credit := extract_photo_credit content
            (some (generate_modern_html info thumbnails nav.1 nav.2 large_image
                    photo_credit filename), "Success")

/-- Lines 326-340 of `main`: the effect of one batch run on the gallery
files, with the file system modelled as (filename, content) pairs; a file
is overwritten by the generated page exactly when processing returns one,
and is untouched otherwise. -/
def runBatch (files : List (String × String)) : List (String × String) :=
  files.map (fun fc =>
    match (process_gallery_file fc.1 fc.2).1 with
    | some new_html => (fc.1, new_html)
    | none => fc)

/-! ## Helper lemmas -/

theorem isPrefixOf_append_extend (p : List Char) :
    ∀ (h t : List Char), p.isPrefixOf h = true → p.isPrefixOf (h ++ t) = true := by
  induction p with
  | nil => intro h t _; simp [List.isPrefixOf]
  | cons c cs ih =>
    intro h t hp
    cases h with
    | nil => simp [List.isPrefixOf] at hp
    | cons d ds =>
      simp only [List.isPrefixOf, Bool.and_eq_true, beq_iff_eq] at hp
      simp only [List.cons_append, List.isPrefixOf, Bool.and_eq_true, beq_iff_eq]
      exact ⟨hp.1, ih ds t hp.2⟩

theorem isSubstring_nil_needle (l : List Char) : isSubstring [] l = true := by
  cases l with
  | nil => rfl
  | cons x t => simp [isSubstring, List.isPrefixOf]

theorem isSubstring_of_isPrefixOf (n h : List Char) (hp : n.isPrefixOf h = true) :
    isSubstring n h = true := by
  cases h with
  | nil =>
    cases n with
    | nil => rfl
    | cons c cs => simp [List.isPrefixOf] at hp
  | cons x t => simp [isSubstring, hp]

theorem isSubstring_append_right (n : List Char) :
    ∀ (h t : List Char), isSubstring n h = true → isSubstring n (h ++ t) = true := by
  intro h
  induction h with
  | nil =>
    intro t hs
    simp only [isSubstring, List.isEmpty_iff] at hs
    subst hs
    exact isSubstring_nil_needle t
  | cons x xs ih =>
    intro t hs
    simp only [isSubstring, Bool.or_eq_true] at hs
    rcases hs with h1 | h2
    · simp only [List.cons_append, isSubstring, Bool.or_eq_true]
      exact Or.inl (by simpa using isPrefixOf_append_extend n (x :: xs) t h1)
    · simp only [List.cons_append, isSubstring, Bool.or_eq_true]
      exact Or.inr (ih t h2)

theorem isSubstring_append_left (n h : List Char) (hs : isSubstring n h = true) :
    ∀ (t : List Char), isSubstring n (t ++ h) = true := by
  intro t
  induction t with
  | nil => simpa using hs
  | cons x xs ih =>
    simp only [List.cons_append, isSubstring, Bool.or_eq_true]
    exact Or.inr ih

theorem isPrefixOf_comparable :
    ∀ (x p q : List Char), p.isPrefixOf x = true → q.isPrefixOf x = true →
      p.isPrefixOf q = true ∨ q.isPrefixOf p = true := by
  intro x
  induction x with
  | nil =>
    intro p q hp hq
    cases p with
    | nil => exact Or.inl (by simp [List.isPrefixOf])
    | cons a as => simp [List.isPrefixOf] at hp
  | cons c cs ih =>
    intro p q hp hq
    cases p with
    | nil => exact Or.inl (by simp [List.isPrefixOf])
    | cons a as =>
      cases q with
      | nil => exact Or.inr (by simp [List.isPrefixOf])
      | cons b bs =>
        simp only [List.isPrefixOf, Bool.and_eq_true, beq_iff_eq] at hp hq
        rcases ih as bs hp.2 hq.2 with h1 | h1
        · exact Or.inl (by
            simp only [List.isPrefixOf, Bool.and_eq_true, beq_iff_eq]
            exact ⟨hp.1.trans hq.1.symm, h1⟩)
        · exact Or.inr (by
            simp only [List.isPrefixOf, Bool.and_eq_true, beq_iff_eq]
            exact ⟨hq.1.trans hp.1.symm, h1⟩)

theorem pyStartsWith_excl (x p q : String)
    (h1 : p.data.isPrefixOf q.data = false) (h2 : q.data.isPrefixOf p.data = false)
    (hx : pyStartsWith x p = true) : pyStartsWith x q = false := by
  by_contra hq
  rcases isPrefixOf_comparable x.data p.data q.data hx
      (by simpa [pyStartsWith] using Bool.not_eq_false _ |>.mp hq) with h | h
  · rw [h1] at h; exact Bool.false_ne_true h
  · rw [h2] at h; exact Bool.false_ne_true h

/-- The credit loop keeps, for each label, the last line carrying it. -/
theorem creditFold_spec :
    ∀ (l : List String) (a b c d : String),
      l.foldl creditStep (a, b, c, d) =
        ((l.filter (fun s => pyStartsWith s "Scenery:")).getLastD a,
         (l.filter (fun s => pyStartsWith s "Costumes:")).getLastD b,
         (l.filter (fun s => pyStartsWith s "Lights:")).getLastD c,
         (l.filter (fun s => pyStartsWith s "Choreography:")).getLastD d) := by
  intro l
  induction l with
  | nil => intro a b c d; rfl
  | cons x xs ih =>
    intro a b c d
    simp only [List.foldl_cons, List.filter_cons]
    by_cases hS : pyStartsWith x "Scenery:" = true
    · have hC := pyStartsWith_excl x "Scenery:" "Costumes:" (by decide) (by decide) hS
      have hL := pyStartsWith_excl x "Scenery:" "Lights:" (by decide) (by decide) hS
      have hH := pyStartsWith_excl x "Scenery:" "Choreography:" (by decide) (by decide) hS
      rw [show creditStep (a, b, c, d) x = (x, b, c, d) by simp [creditStep, hS]]
      rw [if_pos hS, if_neg (by simp [hC]), if_neg (by simp [hL]), if_neg (by simp [hH])]
      rw [List.getLastD_cons]
      exact ih x b c d
    · by_cases hC : pyStartsWith x "Costumes:" = true
      · have hL := pyStartsWith_excl x "Costumes:" "Lights:" (by decide) (by decide) hC
        have hH := pyStartsWith_excl x "Costumes:" "Choreography:" (by decide) (by decide) hC
        rw [show creditStep (a, b, c, d) x = (a, x, c, d) by simp [creditStep, hS, hC]]
        rw [if_neg hS, if_pos hC, if_neg (by simp [hL]), if_neg (by simp [hH])]
        rw [List.getLastD_cons]
        exact ih a x c d
      · by_cases hL : pyStartsWith x "Lights:" = true
        · have hH := pyStartsWith_excl x "Lights:" "Choreography:" (by decide) (by decide) hL
          rw [show creditStep (a, b, c, d) x = (a, b, x, d) by simp [creditStep, hS, hC, hL]]
          rw [if_neg hS, if_neg hC, if_pos hL, if_neg (by simp [hH])]
          rw [List.getLastD_cons]
          exact ih a b x d
        · by_cases hH : pyStartsWith x "Choreography:" = true
          · rw [show creditStep (a, b, c, d) x = (a, b, c, x) by
              simp [creditStep, hS, hC, hL, hH]]
            rw [if_neg hS, if_neg hC, if_neg hL, if_pos hH]
            rw [List.getLastD_cons]
            exact ih a b c x
          · rw [show creditStep (a, b, c, d) x = (a, b, c, d) by
              simp [creditStep, hS, hC, hL, hH]]
            rw [if_neg hS, if_neg hC, if_neg hL, if_neg hH]
            exact ih a b c d

/-! ## Claims -/

/-- C1: for a non-empty thumbnail sequence whose link targets include the
current filename, when the document has no explicit previous-arrow and no
explicit next-arrow anchor, `extract_navigation` infers the previous link
as the sequence predecessor (wrapping to the last element when the
current entry is first) and the next link as the sequence successor
(wrapping to the first element when the current entry is last). -/
theorem C1_navigation_wraparound (content current : String) (thumbnails : List Thumb)
    (i : Nat)
    (hprev : reSearchG1 prevArrowRE content = none)
    (hnext : reSearchG1 nextArrowRE content = none)
    (hidx : pyIndex (thumbnails.map Thumb.href) current = some i) :
    extract_navigation content thumbnails current =
      ((if i = 0 then (thumbnails.map Thumb.href).getLastD ""
        else (thumbnails.map Thumb.href).getD (i - 1) ""),
       (if i = (thumbnails.map Thumb.href).length - 1 then (thumbnails.map Thumb.href).getD 0 ""
        else (thumbnails.map Thumb.href).getD (i + 1) "")) := by
  have hne : thumbnails ≠ [] := by
    intro h
    subst h
    simp [pyIndex] at hidx
  have hemp : thumbnails.isEmpty = false := by
    simpa [List.isEmpty_iff] using hne
  simp [extract_navigation, nav_prev_raw, nav_next_raw, hprev, hnext, hemp, hidx]

/-- Witness for C1 at the spec instance: sequence [A, B, C], current file
A, no explicit markers; inferred previous is C and next is B. -/
theorem C1_navigation_wraparound_witness :
    extract_navigation "" [⟨"gallery_a.htm", "a_sm.jpg"⟩, ⟨"gallery_b.htm", "b_sm.jpg"⟩,
        ⟨"gallery_c.htm", "c_sm.jpg"⟩] "gallery_a.htm" =
      ("gallery_c.htm", "gallery_b.htm") := by
  have h := C1_navigation_wraparound "" "gallery_a.htm"
    [⟨"gallery_a.htm", "a_sm.jpg"⟩, ⟨"gallery_b.htm", "b_sm.jpg"⟩,
     ⟨"gallery_c.htm", "c_sm.jpg"⟩] 0
    (by decide) (by decide) (by decide)
  rw [h]
  decide

/-- C2: whenever the styled production-info block is found, extraction
succeeds, and after removing italic spans and splitting on line breaks
into trimmed, unescaped, non-blank lines, line 0 is the composer, line 1
the venue and line 2 the year; with fewer than three lines the missing
fields are the empty string, and extraction does not fail. -/
theorem C2_positional_mapping (content info_html : String)
    (h : reSearchG1 fontInfoRE content = some info_html) :
    ∃ info, extract_production_info content = some info ∧
      info.composer = (cleanInfoLines (reSubAllStr italicSubRE info_html)).getD 0 "" ∧
      info.venue = (cleanInfoLines (reSubAllStr italicSubRE info_html)).getD 1 "" ∧
      info.year = (cleanInfoLines (reSubAllStr italicSubRE info_html)).getD 2 "" ∧
      ((cleanInfoLines (reSubAllStr italicSubRE info_html)).length ≤ 2 → info.year = "") ∧
      ((cleanInfoLines (reSubAllStr italicSubRE info_html)).length ≤ 1 → info.venue = "") ∧
      ((cleanInfoLines (reSubAllStr italicSubRE info_html)).length = 0 → info.composer = "") := by
  unfold extract_production_info
  rw [h]
  refine ⟨_, rfl, rfl, rfl, rfl, ?_, ?_, ?_⟩
  · intro hlen
    exact List.getD_eq_default _ _ hlen
  · intro hlen
    exact List.getD_eq_default _ _ hlen
  · intro hlen
    exact List.getD_eq_default _ _ (by omega)

/-- Witness for C2: a block with title and a single line; the composer is
that line, venue and year degrade to the empty string, extraction
succeeds. -/
theorem C2_positional_mapping_witness :
    ∃ info, extract_production_info
        "<font size=\"2\" color=\"#FFFFFF\"><i>T</i><br>C</font>" = some info ∧
      info.composer = "C" ∧ info.venue = "" ∧ info.year = "" := by
  obtain ⟨info, h1, h2, h3, h4, -⟩ :=
    C2_positional_mapping "<font size=\"2\" color=\"#FFFFFF\"><i>T</i><br>C</font>"
      "<i>T</i><br>C" (by decide)
  refine ⟨info, h1, ?_, ?_, ?_⟩
  · rw [h2]; decide
  · rw [h3]; decide
  · rw [h4]; decide

/-- C3: if the current filename is not among the thumbnail link targets,
positional inference is skipped and the links keep their raw (possibly
empty) values; and when processing reaches the navigation stage and
either link is still empty afterwards, the file fails with the
MissingNavigation status and no generated output is produced (so the
batch writer leaves the file untouched). -/
theorem C3_missing_navigation (content filename : String) (info : ProductionInfo)
    (thumbnails : List Thumb) :
    (pyIndex (thumbnails.map Thumb.href) filename = none →
      extract_navigation content thumbnails filename =
        (nav_prev_raw content, nav_next_raw content)) ∧
    (¬(filename = "gallery.htm" ∨ filename = "gallery_old.htm" ∨
        filename = "gallery-new.htm") →
      is_already_modernized content = false →
      extract_production_info content = some info →
      (extract_thumbnails content).isEmpty = false →
      ((extract_navigation content (extract_thumbnails content) filename).1 = "" ∨
        (extract_navigation content (extract_thumbnails content) filename).2 = "") →
      process_gallery_file filename content = (none, "Could not extract navigation")) := by
  constructor
  · intro hidx
    unfold extract_navigation
    dsimp only
    split
    · rw [hidx]
    · rfl
  · intro hname hmod hinfo hth hnav
    unfold process_gallery_file
    rw [if_neg hname, if_neg (by simp [hmod]), hinfo]
    simp only [hth, Bool.false_eq_true, if_false]
    rw [if_pos hnav]

/-- Witness for C3: a document with an info block and one thumbnail whose
target differs from the current file, and no arrow anchors; inference is
skipped, both links stay empty, and processing fails with the
MissingNavigation status. -/
theorem C3_missing_navigation_witness :
    extract_navigation
        "<font size=\"2\" color=\"#FFFFFF\"><i>T</i><br>C</font><a href=\"gallery_a.htm\"><img src=\"x_sm.jpg\">"
        [⟨"gallery_a.htm", "x_sm.jpg"⟩] "gallery_z.htm" = ("", "") ∧
    process_gallery_file "gallery_z.htm"
        "<font size=\"2\" color=\"#FFFFFF\"><i>T</i><br>C</font><a href=\"gallery_a.htm\"><img src=\"x_sm.jpg\">" =
      (none, "Could not extract navigation") := by
  have h := C3_missing_navigation
    "<font size=\"2\" color=\"#FFFFFF\"><i>T</i><br>C</font><a href=\"gallery_a.htm\"><img src=\"x_sm.jpg\">"
    "gallery_z.htm" ⟨"T", "C", "", "", "", "", "", ""⟩ [⟨"gallery_a.htm", "x_sm.jpg"⟩]
  constructor
  · rw [h.1 (by decide)]
    decide
  · exact h.2 (by decide) (by decide) (by decide) (by decide) (Or.inl (by decide))

theorem isPrefixOf_self (p : List Char) : p.isPrefixOf p = true := by
  induction p with
  | nil => rfl
  | cons c cs ih => simp [List.isPrefixOf, ih]

/-- The generated document embeds the production-info section verbatim. -/
theorem production_info_in_generated (info : ProductionInfo) (thumbnails : List Thumb)
    (prev_link next_link large_image photo_credit current_filename : String) :
    strContains
      (generate_modern_html info thumbnails prev_link next_link large_image
        photo_credit current_filename)
      (build_production_info info) = true := by
  unfold generate_modern_html strContains
  dsimp only
  simp only [String.data_append, List.append_assoc]
  exact isSubstring_append_left _ _
    (isSubstring_append_right _ _ _
      (isSubstring_of_isPrefixOf _ _ (isPrefixOf_self _))) tplHead.data

/-- C4: on a crafted legacy block with composer C, venue V, year Y and a
Scenery credit, extraction returns exactly those fields, and the
generated document contains the production-info section with each of
those literal strings. -/
theorem C4_roundtrip :
    extract_production_info
        "<font size=\"2\" color=\"#FFFFFF\"><i>Tosca</i><br>C<br>V<br>Y<br>Scenery: S</font>" =
      some ⟨"Tosca", "C", "V", "Y", "Scenery: S", "", "", ""⟩ ∧
    strContains (build_production_info ⟨"Tosca", "C", "V", "Y", "Scenery: S", "", "", ""⟩)
      "C" = true ∧
    strContains (build_production_info ⟨"Tosca", "C", "V", "Y", "Scenery: S", "", "", ""⟩)
      "V" = true ∧
    strContains (build_production_info ⟨"Tosca", "C", "V", "Y", "Scenery: S", "", "", ""⟩)
      "Y" = true ∧
    strContains (build_production_info ⟨"Tosca", "C", "V", "Y", "Scenery: S", "", "", ""⟩)
      "Scenery: S" = true ∧
    strContains
      (generate_modern_html ⟨"Tosca", "C", "V", "Y", "Scenery: S", "", "", ""⟩
        [⟨"gallery_x_01.htm", "a_sm.jpg"⟩] "gallery_x_01.htm" "gallery_x_01.htm"
        "../images/gallery/x_01_lg.jpg" "Photo: Jane" "gallery_x_01.htm")
      (build_production_info ⟨"Tosca", "C", "V", "Y", "Scenery: S", "", "", ""⟩) = true := by
  refine ⟨by decide, by decide, by decide, by decide, by decide, ?_⟩
  exact production_info_in_generated _ _ _ _ _ _ _

/-- C5: the generator is a pure total function of the page record: two
invocations on equal inputs yield identical output strings, and an
output exists for every record. -/
theorem C5_generator_pure (i1 i2 : ProductionInfo) (t1 t2 : List Thumb)
    (p1 p2 n1 n2 g1 g2 c1 c2 f1 f2 : String)
    (h : i1 = i2 ∧ t1 = t2 ∧ p1 = p2 ∧ n1 = n2 ∧ g1 = g2 ∧ c1 = c2 ∧ f1 = f2) :
    generate_modern_html i1 t1 p1 n1 g1 c1 f1 =
      generate_modern_html i2 t2 p2 n2 g2 c2 f2 ∧
    ∃ out, generate_modern_html i1 t1 p1 n1 g1 c1 f1 = out := by
  obtain ⟨h1, h2, h3, h4, h5, h6, h7⟩ := h
  subst h1
  subst h2
  subst h3
  subst h4
  subst h5
  subst h6
  subst h7
  exact ⟨rfl, _, rfl⟩

/-- Witness for C5 at a concrete record. -/
theorem C5_generator_pure_witness :
    generate_modern_html ⟨"T", "C", "V", "Y", "", "", "", ""⟩
        [⟨"gallery_x_01.htm", "a_sm.jpg"⟩] "p" "n" "l" "c" "gallery_x_02.htm" =
      generate_modern_html ⟨"T", "C", "V", "Y", "", "", "", ""⟩
        [⟨"gallery_x_01.htm", "a_sm.jpg"⟩] "p" "n" "l" "c" "gallery_x_02.htm" :=
  (C5_generator_pure ⟨"T", "C", "V", "Y", "", "", "", ""⟩ ⟨"T", "C", "V", "Y", "", "", "", ""⟩
    [⟨"gallery_x_01.htm", "a_sm.jpg"⟩] [⟨"gallery_x_01.htm", "a_sm.jpg"⟩]
    "p" "p" "n" "n" "l" "l" "c" "c" "gallery_x_02.htm" "gallery_x_02.htm"
    ⟨rfl, rfl, rfl, rfl, rfl, rfl, rfl⟩).1

/-- C6: when exactly one thumbnail's link target equals the current
filename, the rendered grid line for that entry carries the active class
and every other line carries the empty class; the active rendering
differs from the inactive one. -/
theorem C6_active_marking (thumbnails : List Thumb) (current : String) (j : Nat)
    (hj : j < thumbnails.length)
    (huniq : ∀ k (hk : k < thumbnails.length),
      (thumbnails.get ⟨k, hk⟩).href = current ↔ k = j) :
    (build_thumb_lines thumbnails current).length = thumbnails.length ∧
    (∀ k (hk : k < thumbnails.length),
      (build_thumb_lines thumbnails current).getD k "" =
        thumb_entry (k + 1) (thumbnails.get ⟨k, hk⟩)
          (if k = j then " active" else "")) ∧
    (∀ i t, thumb_entry i t " active" ≠ thumb_entry i t "") := by
  refine ⟨?_, ?_, ?_⟩
  · simp [build_thumb_lines, List.enum_length]
  · intro k hk
    have hget : thumbnails.get ⟨k, hk⟩ = thumbnails[k] := rfl
    rw [List.getD_eq_getElem?_getD, build_thumb_lines, List.getElem?_map, List.getElem?_enum,
      List.getElem?_eq_getElem hk]
    simp only [Option.map_some', Option.getD_some, hget]
    have h5 : thumbnails[k].href = current ↔ k = j := by
      rw [← hget]
      exact huniq k hk
    by_cases hkj : k = j
    · rw [if_pos (h5.mpr hkj), if_pos hkj]
    · rw [if_neg (fun hc => hkj (h5.mp hc)), if_neg hkj]
  · intro i t h
    have h2 := congrArg String.data h
    simp only [thumb_entry, String.data_append, List.append_assoc] at h2
    have h3 := List.append_cancel_left (List.append_cancel_left (List.append_cancel_left h2))
    have h4 := congrArg List.length h3
    simp only [List.length_append] at h4
    have e1 : (" active".data).length = 7 := rfl
    have e2 : (("").data).length = 0 := rfl
    rw [e1, e2] at h4
    omega

/-- Witness for C6 at the spec instance [A, B, C] with current file B:
entry B renders with the active class, entries A and C without it. -/
theorem C6_active_marking_witness :
    (build_thumb_lines [⟨"gallery_a.htm", "a_sm.jpg"⟩, ⟨"gallery_b.htm", "b_sm.jpg"⟩,
        ⟨"gallery_c.htm", "c_sm.jpg"⟩] "gallery_b.htm").getD 1 "" =
      thumb_entry 2 ⟨"gallery_b.htm", "b_sm.jpg"⟩ " active" ∧
    (build_thumb_lines [⟨"gallery_a.htm", "a_sm.jpg"⟩, ⟨"gallery_b.htm", "b_sm.jpg"⟩,
        ⟨"gallery_c.htm", "c_sm.jpg"⟩] "gallery_b.htm").getD 0 "" =
      thumb_entry 1 ⟨"gallery_a.htm", "a_sm.jpg"⟩ "" ∧
    (build_thumb_lines [⟨"gallery_a.htm", "a_sm.jpg"⟩, ⟨"gallery_b.htm", "b_sm.jpg"⟩,
        ⟨"gallery_c.htm", "c_sm.jpg"⟩] "gallery_b.htm").getD 2 "" =
      thumb_entry 3 ⟨"gallery_c.htm", "c_sm.jpg"⟩ "" := by
  have h := C6_active_marking
    [⟨"gallery_a.htm", "a_sm.jpg"⟩, ⟨"gallery_b.htm", "b_sm.jpg"⟩,
     ⟨"gallery_c.htm", "c_sm.jpg"⟩] "gallery_b.htm" 1 (by decide) (by decide)
  refine ⟨?_, ?_, ?_⟩
  · simpa using h.2.1 1 (by decide)
  · simpa using h.2.1 0 (by decide)
  · simpa using h.2.1 2 (by decide)

set_option maxRecDepth 8192 in
/-- C8: every generated document contains the DOCTYPE marker and the
gallery-detail-layout marker, so `is_already_modernized` accepts it, and
reprocessing a rewritten file (whose name is not in the excluded set)
skips with the Already modernized status and produces no output. -/
theorem C8_output_modernized (info : ProductionInfo) (thumbnails : List Thumb)
    (p n lg cr cur filename : String)
    (hname : ¬(filename = "gallery.htm" ∨ filename = "gallery_old.htm" ∨
      filename = "gallery-new.htm")) :
    strContains (generate_modern_html info thumbnails p n lg cr cur)
      "<!DOCTYPE html>" = true ∧
    strContains (generate_modern_html info thumbnails p n lg cr cur)
      "gallery-detail-layout" = true ∧
    is_already_modernized (generate_modern_html info thumbnails p n lg cr cur) = true ∧
    process_gallery_file filename (generate_modern_html info thumbnails p n lg cr cur) =
      (none, "Already modernized") := by
  have key : ∀ needle : String, isSubstring needle.data tplHead.data = true →
      strContains (generate_modern_html info thumbnails p n lg cr cur) needle = true := by
    intro needle hsub
    unfold generate_modern_html strContains
    dsimp only
    simp only [String.data_append, List.append_assoc]
    exact isSubstring_append_right _ _ _ hsub
  have h1 := key "<!DOCTYPE html>" (by decide)
  have h2 := key "gallery-detail-layout" (by decide)
  have h3 : is_already_modernized (generate_modern_html info thumbnails p n lg cr cur)
      = true := by
    unfold is_already_modernized
    rw [h1, h2]
    rfl
  refine ⟨h1, h2, h3, ?_⟩
  unfold process_gallery_file
  rw [if_neg hname, if_pos h3]

/-- Witness for C8: a concrete generated page is skipped on reprocessing. -/
theorem C8_output_modernized_witness :
    process_gallery_file "gallery_x_01.htm"
      (generate_modern_html ⟨"T", "C", "V", "Y", "", "", "", ""⟩
        [⟨"gallery_x_01.htm", "a_sm.jpg"⟩] "gallery_x_01.htm" "gallery_x_01.htm"
        "../images/gallery/x_01_lg.jpg" "" "gallery_x_01.htm") =
      (none, "Already modernized") :=
  (C8_output_modernized ⟨"T", "C", "V", "Y", "", "", "", ""⟩
    [⟨"gallery_x_01.htm", "a_sm.jpg"⟩] "gallery_x_01.htm" "gallery_x_01.htm"
    "../images/gallery/x_01_lg.jpg" "" "gallery_x_01.htm" "gallery_x_01.htm"
    (by decide)).2.2.2

/-- C7 counterexample: the empty document contains no large-image
reference, yet processing fails with the MissingProductionInfo status
rather than MissingLargeImage, so the claim as stated fails there (it
does produce no output, but under a different status). -/
theorem C7_counterexample :
    reSearchG1 largeImgRE "" = none ∧
    extract_large_image "" = "" ∧
    process_gallery_file "gallery_x.htm" "" =
      (none, "Could not extract production info") ∧
    (process_gallery_file "gallery_x.htm" "").2 ≠ "Could not extract large image" := by
  refine ⟨by decide, by decide, by decide, by decide⟩

/-- C7 (amended): for every document with no large-image reference,
`extract_large_image` returns the empty string; and provided the file is
not name-excluded, not already modernized, and production info,
thumbnails and navigation all extract successfully, processing fails
with the MissingLargeImage status and no output, so the batch leaves the
file unchanged and still processes the files before and after it. -/
theorem C7_missing_large_image (content filename : String) (info : ProductionInfo)
    (pre post : List (String × String))
    (hname : ¬(filename = "gallery.htm" ∨ filename = "gallery_old.htm" ∨
      filename = "gallery-new.htm"))
    (hmod : is_already_modernized content = false)
    (hinfo : extract_production_info content = some info)
    (hth : (extract_thumbnails content).isEmpty = false)
    (hprev : ¬(extract_navigation content (extract_thumbnails content) filename).1 = "")
    (hnext : ¬(extract_navigation content (extract_thumbnails content) filename).2 = "")
    (hlg : reSearchG1 largeImgRE content = none) :
    extract_large_image content = "" ∧
    process_gallery_file filename content = (none, "Could not extract large image") ∧
    runBatch (pre ++ (filename, content) :: post) =
      runBatch pre ++ (filename, content) :: runBatch post := by
  have h0 : extract_large_image content = "" := by
    unfold extract_large_image
    rw [hlg]
  have h1 : process_gallery_file filename content =
      (none, "Could not extract large image") := by
    unfold process_gallery_file
    rw [if_neg hname, if_neg (by simp [hmod]), hinfo]
    simp only [hth, Bool.false_eq_true, if_false]
    rw [if_neg (not_or.mpr ⟨hprev, hnext⟩)]
    simp only [h0, if_pos]
  refine ⟨h0, h1, ?_⟩
  simp only [runBatch, List.map_append, List.map_cons, h1]

/-- Witness for C7 (amended): a document with info, a thumbnail matching
the current file, inferred navigation, and no large image; processing
stops at MissingLargeImage and the one-file batch leaves it unchanged. -/
theorem C7_missing_large_image_witness :
    extract_large_image
        "<font size=\"2\" color=\"#FFFFFF\"><i>T</i><br>C</font><a href=\"gallery_a.htm\"><img src=\"x_sm.jpg\">" = "" ∧
    process_gallery_file "gallery_a.htm"
        "<font size=\"2\" color=\"#FFFFFF\"><i>T</i><br>C</font><a href=\"gallery_a.htm\"><img src=\"x_sm.jpg\">" =
      (none, "Could not extract large image") ∧
    runBatch [("gallery_a.htm",
        "<font size=\"2\" color=\"#FFFFFF\"><i>T</i><br>C</font><a href=\"gallery_a.htm\"><img src=\"x_sm.jpg\">")] =
      [("gallery_a.htm",
        "<font size=\"2\" color=\"#FFFFFF\"><i>T</i><br>C</font><a href=\"gallery_a.htm\"><img src=\"x_sm.jpg\">")] := by
  have h := C7_missing_large_image
    "<font size=\"2\" color=\"#FFFFFF\"><i>T</i><br>C</font><a href=\"gallery_a.htm\"><img src=\"x_sm.jpg\">"
    "gallery_a.htm" ⟨"T", "C", "", "", "", "", "", ""⟩ [] []
    (by decide) (by decide) (by decide) (by decide) (by decide) (by decide) (by decide)
  exact ⟨h.1, h.2.1, by simpa using h.2.2⟩

/-- C9: among the lines after the first three, when several begin with
the same credit label prefix the corresponding field holds the last such
line (earlier ones are silently discarded); each credit field equals the
last matching line of its filter, with the empty string when none. -/
theorem C9_last_credit_wins (content info_html : String)
    (h : reSearchG1 fontInfoRE content = some info_html) :
    ∃ info, extract_production_info content = some info ∧
      info.scenery =
        (((cleanInfoLines (reSubAllStr italicSubRE info_html)).drop 3).filter
          (fun s => pyStartsWith s "Scenery:")).getLastD "" ∧
      info.costumes =
        (((cleanInfoLines (reSubAllStr italicSubRE info_html)).drop 3).filter
          (fun s => pyStartsWith s "Costumes:")).getLastD "" ∧
      info.lights =
        (((cleanInfoLines (reSubAllStr italicSubRE info_html)).drop 3).filter
          (fun s => pyStartsWith s "Lights:")).getLastD "" ∧
      info.choreography =
        (((cleanInfoLines (reSubAllStr italicSubRE info_html)).drop 3).filter
          (fun s => pyStartsWith s "Choreography:")).getLastD "" := by
  unfold extract_production_info
  rw [h]
  refine ⟨_, rfl, ?_, ?_, ?_, ?_⟩
  · rw [creditFold_spec]
  · rw [creditFold_spec]
  · rw [creditFold_spec]
  · rw [creditFold_spec]

/-- Witness for C9: two Scenery lines; the extracted scenery field is the
later one. -/
theorem C9_last_credit_wins_witness :
    ∃ info, extract_production_info
        "<font size=\"2\" color=\"#FFFFFF\"><i>T</i><br>C<br>V<br>Y<br>Scenery: A<br>Scenery: B</font>" =
        some info ∧ info.scenery = "Scenery: B" := by
  obtain ⟨info, h1, h2, -⟩ := C9_last_credit_wins
    "<font size=\"2\" color=\"#FFFFFF\"><i>T</i><br>C<br>V<br>Y<br>Scenery: A<br>Scenery: B</font>"
    "<i>T</i><br>C<br>V<br>Y<br>Scenery: A<br>Scenery: B" (by decide)
  refine ⟨info, h1, ?_⟩
  rw [h2]
  decide

/-- C10: the positional fields are taken from the non-blank segments (in
order) of the block after removing every italic span, each trimmed and
unescaped: blank or whitespace-only segments never occupy a position. -/
theorem C10_blank_segments_dropped (content info_html : String)
    (h : reSearchG1 fontInfoRE content = some info_html) :
    ∃ info, extract_production_info content = some info ∧
      cleanInfoLines (reSubAllStr italicSubRE info_html) =
        ((reSplitStr brRE (reSubAllStr italicSubRE info_html)).filter
          (fun l => pyStrip l != "")).map (fun l => unescape (pyStrip l)) ∧
      info.composer =
        (((reSplitStr brRE (reSubAllStr italicSubRE info_html)).filter
          (fun l => pyStrip l != "")).map (fun l => unescape (pyStrip l))).getD 0 "" ∧
      info.venue =
        (((reSplitStr brRE (reSubAllStr italicSubRE info_html)).filter
          (fun l => pyStrip l != "")).map (fun l => unescape (pyStrip l))).getD 1 "" ∧
      info.year =
        (((reSplitStr brRE (reSubAllStr italicSubRE info_html)).filter
          (fun l => pyStrip l != "")).map (fun l => unescape (pyStrip l))).getD 2 "" := by
  unfold extract_production_info
  rw [h]
  exact ⟨_, rfl, rfl, rfl, rfl, rfl⟩

/-- Witness for C10: a block with a whitespace-only segment and a second
italic span between the content lines; both are discarded, so composer,
venue and year come from the non-blank remainder. -/
theorem C10_blank_segments_dropped_witness :
    ∃ info, extract_production_info
        "<font size=\"2\" color=\"#FFFFFF\"><i>T</i><br> <br>C<br><i>X</i><br>V<br>Y</font>" =
        some info ∧ info.composer = "C" ∧ info.venue = "V" ∧ info.year = "Y" := by
  obtain ⟨info, h1, -, h2, h3, h4⟩ := C10_blank_segments_dropped
    "<font size=\"2\" color=\"#FFFFFF\"><i>T</i><br> <br>C<br><i>X</i><br>V<br>Y</font>"
    "<i>T</i><br> <br>C<br><i>X</i><br>V<br>Y" (by decide)
  refine ⟨info, h1, ?_, ?_, ?_⟩
  · rw [h2]
    decide
  · rw [h3]
    decide
  · rw [h4]
    decide
